import Mathlib

/-!
# Weather-History-Collector: shallow embedding of the analysis core

Embedding of `src/business_logic/weather_analyzer.py` and
`src/models/weather_models.py`.

Modelling conventions:
* Weather records flow through the analyzer as Python dicts; the analyzer
  only ever reads the keys `location`, `temperature`, `timestamp`, `date`.
  We model such a dict as a structure of those four optional fields
  (`WRec`); `r.get(k)` is the `Option` field, `r.get(k, d)` is `getD`.
* Python floats are modelled as rationals `ℚ` (exact arithmetic; the
  values in the spec's examples are exactly representable).
* Parsed datetimes in the analyzer are modelled as integers: ISO-8601
  parsing of the timestamp strings is an order-isomorphism, so comparisons
  and sorting carry over.  (The record-model file's ISO round trip is
  modelled separately and concretely, see `PyDateTime` below.)
* Python's `datetime.now()` fallback in `calculate_temperature_trend` is
  made explicit as a `now : Int` parameter.
* Python truthiness of an optional float (`None` and `0.0` are falsy) is
  `pyTruthy`.
-/

/-- A weather record dict, restricted to the keys the analyzer reads. -/
structure WRec where
  location : Option String := none
  temperature : Option ℚ := none
  timestamp : Option Int := none
  date : Option Int := none
deriving DecidableEq, Repr

/-- Python truthiness of an optional float: `None` and `0.0` are falsy. -/
def pyTruthy : Option ℚ → Bool
  | none => false
  | some q => q != 0

/-- Python `x or 0` on an optional float. -/
def pyOrZero (x : Option ℚ) : ℚ :=
  match x with
  | some q => if q != 0 then q else 0
  | none => 0

/-- `listLeads needle hay`: `needle` is an initial segment of `hay`. -/
def listLeads [DecidableEq α] : List α → List α → Bool
  | [], _ => true
  | _ :: _, [] => false
  | a :: l, b :: m => a = b && listLeads l m

/-- `listHasSub needle hay`: `needle` occurs contiguously in `hay`
(Python's `needle in hay` on strings, via their character lists). -/
def listHasSub [DecidableEq α] (needle : List α) : List α → Bool
  | [] => listLeads needle []
  | b :: m => listLeads needle (b :: m) || listHasSub needle m

/-- ASCII model of Python `str.lower()` on a single character. -/
def pyLowerChar (c : Char) : Char :=
  if 65 ≤ c.toNat ∧ c.toNat ≤ 90 then Char.ofNat (c.toNat + 32) else c

/-- Python `s.lower()`, as a character list (the repository's location
strings are ASCII). -/
def pyLower (s : String) : List Char := s.data.map pyLowerChar

/-- Case-insensitive substring test: Python
`needle.lower() in hay.lower()`.  (Lower-casing the needle here also
covers `LocationFilter`, which lower-cases its argument in `__init__`
and then tests membership in `apply`: lower-casing is idempotent.) -/
def strContains (hay needle : String) : Bool :=
  listHasSub (pyLower needle) (pyLower hay)

/-- `record.get('timestamp') or record.get('date')`: the timestamp used by
`DateRangeFilter` (no empty-string timestamps are modelled, so Python's
`or` is `Option.orElse`). -/
def tsOrDate (r : WRec) : Option Int :=
  match r.timestamp with
  | some t => some t
  | none => r.date

/-- Python `list.remove(x)`: drop the first element equal to `x`. -/
def pyRemove [DecidableEq α] : List α → α → List α
  | [], _ => []
  | b :: l, a => if b = a then l else b :: pyRemove l a

/-- The filter strategies of `weather_analyzer.py` as a closed sum. -/
inductive WFilter where
  | tempRange (min_temp max_temp : Option ℚ)
  | dateRange (start_date end_date : Option Int)
  | location (loc : String)
deriving DecidableEq, Repr

/-- `LocationFilter(location)`: `__init__` lower-cases the argument and
`apply` tests substring membership against the lower-cased record
location; the two steps together are `strContains`, which lowers both
sides. -/
def mkLocationFilter (location : String) : WFilter :=
  .location location

/-- `DateRangeFilter.apply`: iterates over a snapshot `filtered[:]` of the
input while calling `filtered.remove(record)` on the *live* list, which is
the very list object the caller passed in (`filtered = records` aliases).
`go snapshot filtered` returns the final state of that list, which is both
the returned value and the caller's list after the call. -/
def dateRangeApply (start_date end_date : Option Int) (records : List WRec) :
    List WRec :=
  go records records
where
  go : List WRec → List WRec → List WRec
  | [], filtered => filtered
  | record :: rest, filtered =>
    match tsOrDate record with
    | none => go rest filtered
    | some timestamp =>
      if (match start_date with
               | some s => decide (timestamp < s)
               | none => false) = true then
        go rest (pyRemove filtered record)
      else if (match end_date with
               | some e => decide (e < timestamp)
               | none => false) = true then
        if record ∈ filtered then go rest (pyRemove filtered record)
        else go rest filtered
      else go rest filtered

/-- `apply` of each filter variant, from `weather_analyzer.py`. -/
def WFilter.apply : WFilter → List WRec → List WRec
  | .tempRange min_temp max_temp, records =>
    let filtered := records
    let filtered := match min_temp with
      | some m => filtered.filter (fun r => m ≤ r.temperature.getD 0)
      | none => filtered
    let filtered := match max_temp with
      | some m => filtered.filter (fun r => r.temperature.getD 0 ≤ m)
      | none => filtered
    filtered
  | .dateRange start_date end_date, records =>
    dateRangeApply start_date end_date records
  | .location loc, records =>
    records.filter (fun r => strContains (r.location.getD "") loc)

/-- `WeatherAnalyzer.apply_filters`: fold the records through the filter
list in order. -/
def apply_filters (filters : List WFilter) (records : List WRec) :
    List WRec :=
  filters.foldl (fun filtered f => f.apply filtered) records

/-- The inclusion predicate of a pure inclusion filter (the
`dateRange` variant is not one: it mutates, see `dateRangeApply`). -/
def WFilter.pred : WFilter → WRec → Bool
  | .tempRange min_temp max_temp, r =>
    (match min_temp with
     | some m => decide (m ≤ r.temperature.getD 0)
     | none => true)
    && (match max_temp with
        | some m => decide (r.temperature.getD 0 ≤ m)
        | none => true)
  | .dateRange _ _, _ => true
  | .location loc, r => strContains (r.location.getD "") loc

/-- Which filter variants are pure inclusion filters. -/
def WFilter.isInclusion : WFilter → Bool
  | .dateRange _ _ => false
  | _ => true

/-- `WeatherAnalyzer.calculate_average_temperature`. -/
def calculate_average_temperature (records : List WRec) : Option ℚ :=
  if records = [] then none
  else
    let temps := (records.filterMap (·.temperature))
    if temps = [] then none
    else some (temps.sum / temps.length)

/-- Insertion of `a` into `l` before the first `b` with `le a b`:
together with `insertionSort` this is the unique stable sort, hence the
semantics of Python's `sorted` with a key. -/
def orderedInsert (le : α → α → Bool) (a : α) : List α → List α
  | [] => [a]
  | b :: l => if le a b then a :: b :: l else b :: orderedInsert le a l

/-- Stable sort (Python `sorted`). -/
def insertionSort (le : α → α → Bool) : List α → List α
  | [] => []
  | a :: l => orderedInsert le a (insertionSort le l)

/-- The sort key of `calculate_temperature_trend`:
`x.get('timestamp') or x.get('date', datetime.now().isoformat())`, with
the ambient clock made an explicit argument. -/
def trendKey (now : Int) (r : WRec) : Int :=
  match r.timestamp with
  | some t => t
  | none => r.date.getD now

/-- The records sorted ascending by `trendKey`. -/
def trendSorted (now : Int) (records : List WRec) : List WRec :=
  insertionSort (fun a b => trendKey now a ≤ trendKey now b) records

/-- Result of `calculate_temperature_trend`, which in the source is the
formatted string: `Stable (±{abs diff}°C)`, `Warming (+{diff}°C)`,
`Cooling ({diff}°C)` or `"Insufficient data"`.  Each constructor carries
the number printed in the string. -/
inductive Trend where
  | insufficient
  | stable (mag : ℚ)
  | warming (diff : ℚ)
  | cooling (diff : ℚ)
deriving DecidableEq, Repr

/-- `WeatherAnalyzer.calculate_temperature_trend`. -/
def calculate_temperature_trend (now : Int) (records : List WRec) : Trend :=
  if records.length < 2 then .insufficient
  else
    let sorted_records := trendSorted now records
    let first_half := sorted_records.take (sorted_records.length / 2)
    let second_half := sorted_records.drop (sorted_records.length / 2)
    match calculate_average_temperature first_half,
          calculate_average_temperature second_half with
    | some avg_first, some avg_second =>
      let diff := avg_second - avg_first
      if |diff| < 1 then .stable |diff|
      else if 0 < diff then .warming diff
      else .cooling diff
    | _, _ => .insufficient

/-- `sum(temps)/len(temps)`, `min(temps)`, `max(temps)` over the non-null
temperatures, plus the other fields of the summary dict. -/
structure SummaryStats where
  total_records : Nat
  average_temperature : ℚ
  min_temperature : ℚ
  max_temperature : ℚ
  temperature_range : ℚ
  unique_locations : Nat
  trend : Trend
deriving DecidableEq, Repr

/-- Result of `get_summary_statistics`: either the `{"error": msg}` dict or
the data dict. -/
inductive StatsResult where
  | err (msg : String)
  | ok (stats : SummaryStats)
deriving DecidableEq, Repr

/-- Python `min` over a nonempty list via fold. -/
def listMin (t : ℚ) (ts : List ℚ) : ℚ := ts.foldl min t

/-- Python `max` over a nonempty list via fold. -/
def listMax (t : ℚ) (ts : List ℚ) : ℚ := ts.foldl max t

/-- `WeatherAnalyzer.get_summary_statistics` (the clock parameter is
threaded to `calculate_temperature_trend`). -/
def get_summary_statistics (now : Int) (records : List WRec) : StatsResult :=
  if records = [] then .err "No records to analyze"
  else
    match records.filterMap (·.temperature) with
    | [] => .err "No temperature data available"
    | t :: ts =>
      .ok {
        total_records := records.length
        average_temperature := (t :: ts).sum / (t :: ts).length
        min_temperature := listMin t ts
        max_temperature := listMax t ts
        temperature_range := listMax t ts - listMin t ts
        unique_locations := ((records.map (·.location)).dedup).length
        trend := calculate_temperature_trend now records
      }

/-- The data dict returned by `compare_locations` on success. -/
structure CompareStats where
  location1 : String
  location1_avg_temp : Option ℚ
  location1_records : Nat
  location2 : String
  location2_avg_temp : Option ℚ
  location2_records : Nat
  temperature_difference : Option ℚ
  warmer_location : String
deriving DecidableEq, Repr

/-- Result of `compare_locations`. -/
inductive CompareResult where
  | err (msg : String)
  | ok (stats : CompareStats)
deriving DecidableEq, Repr

/-- `WeatherAnalyzer.compare_locations`.  (The source also computes
`group_by_location(records)` into a local it never uses; being pure in
this model it is omitted.)  `avg1 and avg2` and `avg1 or 0` use Python
truthiness, under which a `0.0` average is falsy. -/
def compare_locations (records : List WRec) (location1 location2 : String) :
    CompareResult :=
  let loc1_records := records.filter
    (fun r => strContains (r.location.getD "") location1)
  let loc2_records := records.filter
    (fun r => strContains (r.location.getD "") location2)
  if loc1_records = [] ∨ loc2_records = [] then
    .err "Insufficient data for comparison"
  else
    let avg1 := calculate_average_temperature loc1_records
    let avg2 := calculate_average_temperature loc2_records
    .ok {
      location1 := location1
      location1_avg_temp := avg1
      location1_records := loc1_records.length
      location2 := location2
      location2_avg_temp := avg2
      location2_records := loc2_records.length
      temperature_difference :=
        if pyTruthy avg1 && pyTruthy avg2 then
          some |avg1.getD 0 - avg2.getD 0|
        else none
      warmer_location :=
        if pyOrZero avg2 < pyOrZero avg1 then location1 else location2
    }

/-- Display string of a trend value (numeric `:.1f` formatting is
abstracted by `toString` on the rational). -/
def Trend.display : Trend → String
  | .insufficient => "Insufficient data"
  | .stable mag => "Stable (±" ++ toString mag ++ "°C)"
  | .warming diff => "Warming (+" ++ toString diff ++ "°C)"
  | .cooling diff => "Cooling (" ++ toString diff ++ "°C)"

/-- `WeatherReportGenerator.generate_summary_report`: checks for the
`"error"` key before reading any data field, so it always returns a
string. -/
def generate_summary_report (now : Int) (records : List WRec) : String :=
  match get_summary_statistics now records with
  | .err msg => "❌ " ++ msg
  | .ok stats =>
    "\n" ++ "📊 WEATHER SUMMARY REPORT\n" ++
    "📝 Total Records: " ++ toString stats.total_records ++ "\n" ++
    "📍 Unique Locations: " ++ toString stats.unique_locations ++ "\n" ++
    "🌡️  Average Temperature: " ++ toString stats.average_temperature ++ "°C\n" ++
    "🔥 Maximum Temperature: " ++ toString stats.max_temperature ++ "°C\n" ++
    "❄️  Minimum Temperature: " ++ toString stats.min_temperature ++ "°C\n" ++
    "📈 Temperature Range: " ++ toString stats.temperature_range ++ "°C\n" ++
    "📉 Trend: " ++ stats.trend.display ++ "\n"

/-- `WeatherReportGenerator.generate_location_report`: reads
`stats['total_records']` without first checking for the `"error"` key,
so on an error dict the subscript raises `KeyError` (modelled as
`Except.error`). -/
def generate_location_report (now : Int) (records : List WRec)
    (location : String) : Except String String :=
  let location_records := records.filter
    (fun r => strContains (r.location.getD "") location)
  if location_records = [] then
    .ok ("❌ No data found for location: " ++ location)
  else
    match get_summary_statistics now location_records with
    | .err _ => .error "KeyError: total_records"
    | .ok stats =>
      .ok ("\n" ++ "📍 WEATHER REPORT FOR: " ++ location.toUpper ++ "\n" ++
        "📝 Total Records: " ++ toString stats.total_records ++ "\n" ++
        "🌡️  Average Temperature: " ++ toString stats.average_temperature ++ "°C\n" ++
        "🔥 Maximum Temperature: " ++ toString stats.max_temperature ++ "°C\n" ++
        "❄️  Minimum Temperature: " ++ toString stats.min_temperature ++ "°C\n" ++
        "📈 Trend: " ++ stats.trend.display ++ "\n")

/-! ## The record models (`src/models/weather_models.py`) -/

/-- A Python naive `datetime`, by components. -/
structure PyDateTime where
  year : Nat
  month : Nat
  day : Nat
  hour : Nat
  minute : Nat
  second : Nat
  microsecond : Nat
deriving DecidableEq, Repr

/-- Field bounds needed for the ISO form to be well-shaped (Python's
`datetime` enforces stricter calendar bounds, so every Python datetime
satisfies this). -/
def PyDateTime.inRange (d : PyDateTime) : Prop :=
  d.year < 10000 ∧ d.month < 100 ∧ d.day < 100 ∧ d.hour < 100 ∧
  d.minute < 100 ∧ d.second < 100 ∧ d.microsecond < 1000000

instance (d : PyDateTime) : Decidable d.inRange := by
  unfold PyDateTime.inRange; infer_instance

/-- The character of a decimal digit. -/
def digitChar (d : Nat) : Char := Char.ofNat (48 + d)

/-- `n` printed in exactly `w` decimal digits (zero-padded; the value is
taken mod `10^w`). -/
def padNat : Nat → Nat → List Char
  | 0, _ => []
  | w + 1, n => padNat w (n / 10) ++ [digitChar (n % 10)]

/-- Decimal value of a digit string. -/
def parseNat (cs : List Char) : Nat :=
  cs.foldl (fun a c => a * 10 + (c.toNat - 48)) 0

/-- All characters are decimal digits. -/
def allDigits (cs : List Char) : Bool :=
  cs.all (fun c => 48 ≤ c.toNat && c.toNat ≤ 57)

/-- Read exactly `w` digits off the front of `s`. -/
def readNat (w : Nat) (s : List Char) : Option (Nat × List Char) :=
  let ds := s.take w
  if ds.length = w && allDigits ds then some (parseNat ds, s.drop w)
  else none

/-- Expect a literal separator character. -/
def expectChar (c : Char) : List Char → Option (List Char)
  | [] => none
  | b :: rest => if b = c then some rest else none

/-- `datetime.isoformat()`: `YYYY-MM-DDTHH:MM:SS`, with `.ffffff`
appended exactly when the microsecond field is nonzero. -/
def PyDateTime.isoformat (d : PyDateTime) : List Char :=
  padNat 4 d.year ++ '-' ::
  (padNat 2 d.month ++ '-' ::
  (padNat 2 d.day ++ 'T' ::
  (padNat 2 d.hour ++ ':' ::
  (padNat 2 d.minute ++ ':' ::
  (padNat 2 d.second ++
    (if d.microsecond = 0 then [] else '.' :: padNat 6 d.microsecond))))))

/-- `datetime.fromisoformat` on the strings `isoformat` produces
(`None` models the `ValueError` raised on a malformed string). -/
def fromisoformat (s : List Char) : Option PyDateTime := do
  let (y, s) ← readNat 4 s
  let s ← expectChar '-' s
  let (mo, s) ← readNat 2 s
  let s ← expectChar '-' s
  let (da, s) ← readNat 2 s
  let s ← expectChar 'T' s
  let (h, s) ← readNat 2 s
  let s ← expectChar ':' s
  let (mi, s) ← readNat 2 s
  let s ← expectChar ':' s
  let (se, s) ← readNat 2 s
  match s with
  | [] => some ⟨y, mo, da, h, mi, se, 0⟩
  | '.' :: rest =>
    match readNat 6 rest with
    | some (us, []) => some ⟨y, mo, da, h, mi, se, us⟩
    | _ => none
  | _ => none

/-- `WeatherRecord` dataclass fields. -/
structure WeatherRecord where
  location : String
  temperature : ℚ
  timestamp : PyDateTime
  source : String
  humidity : Option ℚ := none
  windspeed : Option ℚ := none
  precipitation : Option ℚ := none
  condition : Option String := none
  record_id : Option String := none
deriving DecidableEq, Repr

/-- `WeatherRecord.__post_init__`: the validation run on construction. -/
def WeatherRecord.post_init (r : WeatherRecord) : Except String Unit :=
  if r.temperature < -100 ∨ 60 < r.temperature then
    .error "Invalid temperature"
  else if (match r.humidity with
           | some h => decide (h < 0) || decide (100 < h)
           | none => false) = true then
    .error "Invalid humidity"
  else if (match r.windspeed with
           | some w => decide (w < 0)
           | none => false) = true then
    .error "Invalid windspeed"
  else .ok ()

/-- `WeatherRecord(...)`: dataclass construction runs `__post_init__` and
returns the record (or propagates the `ValueError`). -/
def WeatherRecord.construct (r : WeatherRecord) : Except String WeatherRecord :=
  match r.post_init with
  | .ok _ => .ok r
  | .error e => .error e

/-- The value under the `'timestamp'` key of a record dict: `to_dict`
stores the ISO string; `from_dict` also accepts an already-parsed
datetime. -/
inductive TsValue where
  | str (s : List Char)
  | dt (d : PyDateTime)
deriving DecidableEq, Repr

/-- The dict produced by `WeatherRecord.to_dict` / consumed by
`from_dict`. -/
structure WeatherDict where
  location : String
  temperature : ℚ
  timestamp : TsValue
  source : String
  humidity : Option ℚ
  windspeed : Option ℚ
  precipitation : Option ℚ
  condition : Option String
  record_id : Option String
deriving DecidableEq, Repr

/-- `WeatherRecord.to_dict`: `asdict(self)` with the timestamp replaced
by its ISO-format string. -/
def WeatherRecord.to_dict (r : WeatherRecord) : WeatherDict :=
  { location := r.location
    temperature := r.temperature
    timestamp := .str r.timestamp.isoformat
    source := r.source
    humidity := r.humidity
    windspeed := r.windspeed
    precipitation := r.precipitation
    condition := r.condition
    record_id := r.record_id }

/-- `WeatherRecord.from_dict`: parse a string timestamp with
`fromisoformat`, then construct (re-running `__post_init__`). -/
def WeatherRecord.from_dict (data : WeatherDict) : Except String WeatherRecord :=
  match (match data.timestamp with
         | .str s => fromisoformat s
         | .dt d => some d) with
  | none => .error "ValueError: invalid isoformat string"
  | some ts =>
    WeatherRecord.construct
      { location := data.location
        temperature := data.temperature
        timestamp := ts
        source := data.source
        humidity := data.humidity
        windspeed := data.windspeed
        precipitation := data.precipitation
        condition := data.condition
        record_id := data.record_id }

/-- `HistoricalWeatherRecord` dataclass fields. -/
structure HistoricalWeatherRecord where
  location : String
  date : PyDateTime
  temperature_max : Option ℚ
  temperature_min : Option ℚ
  precipitation : Option ℚ
  source : String
  record_id : Option String := none
  condition : Option String := none
deriving DecidableEq, Repr

/-- `HistoricalWeatherRecord.__post_init__`. -/
def HistoricalWeatherRecord.post_init (r : HistoricalWeatherRecord) :
    Except String Unit :=
  match r.temperature_max, r.temperature_min with
  | some mx, some mn =>
    if mx < mn then .error "Max temp < Min temp" else .ok ()
  | _, _ => .ok ()

/-- `HistoricalWeatherRecord(...)`: construction runs `__post_init__`. -/
def HistoricalWeatherRecord.construct (r : HistoricalWeatherRecord) :
    Except String HistoricalWeatherRecord :=
  match r.post_init with
  | .ok _ => .ok r
  | .error e => .error e

/-- Whether an `Except`-modelled Python call raised. -/
def raisesError {α : Type} : Except String α → Bool
  | .error _ => true
  | .ok _ => false

/-! ## Theorems -/

theorem pyOrZero_eq_getD (x : Option ℚ) : pyOrZero x = x.getD 0 := by
  cases x with
  | none => rfl
  | some q =>
    simp only [pyOrZero, Option.getD_some]
    by_cases h : q = 0 <;> simp [h]

/-! ## Digit-string round trip -/

theorem padNat_length (w n : Nat) : (padNat w n).length = w := by
  induction w generalizing n with
  | zero => rfl
  | succ w ih => simp [padNat, ih]

theorem digitChar_toNat (d : Nat) (h : d < 10) :
    (digitChar d).toNat = 48 + d := by
  interval_cases d <;> rfl

theorem digitChar_digit (d : Nat) (h : d < 10) :
    decide (48 ≤ (digitChar d).toNat) = true ∧
      decide ((digitChar d).toNat ≤ 57) = true := by
  interval_cases d <;> exact ⟨rfl, rfl⟩

theorem allDigits_padNat (w n : Nat) : allDigits (padNat w n) = true := by
  induction w generalizing n with
  | zero => rfl
  | succ w ih =>
    simp only [padNat, allDigits, List.all_append, List.all_cons,
      List.all_nil, Bool.and_true, Bool.and_eq_true]
    exact ⟨ih _, digitChar_digit _ (Nat.mod_lt _ (by norm_num))⟩

theorem parseNat_padNat (w n : Nat) (h : n < 10 ^ w) :
    parseNat (padNat w n) = n := by
  induction w generalizing n with
  | zero => simp [pow_zero, Nat.lt_one_iff] at h; simp [h, padNat, parseNat]
  | succ w ih =>
    have hdiv : n / 10 < 10 ^ w := by
      rw [Nat.div_lt_iff_lt_mul (by norm_num)]
      calc n < 10 ^ (w + 1) := h
        _ = 10 ^ w * 10 := by ring
    simp only [padNat, parseNat, List.foldl_append, List.foldl_cons,
      List.foldl_nil]
    have hd := digitChar_toNat (n % 10) (Nat.mod_lt _ (by norm_num))
    rw [hd]
    show parseNat (padNat w (n / 10)) * 10 + (48 + n % 10 - 48) = n
    rw [ih _ hdiv, Nat.add_sub_cancel_left, Nat.mul_comm,
      Nat.div_add_mod]

theorem readNat_padNat (w n : Nat) (rest : List Char) (h : n < 10 ^ w) :
    readNat w (padNat w n ++ rest) = some (n, rest) := by
  simp [readNat, List.take_left' (padNat_length w n),
    List.drop_left' (padNat_length w n), padNat_length,
    allDigits_padNat, parseNat_padNat w n h]

theorem expectChar_cons (c : Char) (rest : List Char) :
    expectChar c (c :: rest) = some rest := by
  simp [expectChar]

set_option maxHeartbeats 2000000 in
theorem fromisoformat_isoformat (d : PyDateTime) (h : d.inRange) :
    fromisoformat d.isoformat = some d := by
  obtain ⟨hy, hmo, hda, hh, hmi, hse, hus⟩ := h
  have r1 : ∀ rest, readNat 4 (padNat 4 d.year ++ rest) = some (d.year, rest) :=
    fun rest => readNat_padNat 4 d.year rest (by norm_num at hy ⊢; exact hy)
  have r2 : ∀ rest, readNat 2 (padNat 2 d.month ++ rest) = some (d.month, rest) :=
    fun rest => readNat_padNat 2 d.month rest (by norm_num at hmo ⊢; exact hmo)
  have r3 : ∀ rest, readNat 2 (padNat 2 d.day ++ rest) = some (d.day, rest) :=
    fun rest => readNat_padNat 2 d.day rest (by norm_num at hda ⊢; exact hda)
  have r4 : ∀ rest, readNat 2 (padNat 2 d.hour ++ rest) = some (d.hour, rest) :=
    fun rest => readNat_padNat 2 d.hour rest (by norm_num at hh ⊢; exact hh)
  have r5 : ∀ rest, readNat 2 (padNat 2 d.minute ++ rest) = some (d.minute, rest) :=
    fun rest => readNat_padNat 2 d.minute rest (by norm_num at hmi ⊢; exact hmi)
  have r6 : ∀ rest, readNat 2 (padNat 2 d.second ++ rest) = some (d.second, rest) :=
    fun rest => readNat_padNat 2 d.second rest (by norm_num at hse ⊢; exact hse)
  by_cases h0 : d.microsecond = 0
  · have : d.isoformat =
        padNat 4 d.year ++ '-' ::
        (padNat 2 d.month ++ '-' ::
        (padNat 2 d.day ++ 'T' ::
        (padNat 2 d.hour ++ ':' ::
        (padNat 2 d.minute ++ ':' ::
        (padNat 2 d.second ++ []))))) := by
      rw [PyDateTime.isoformat, if_pos h0]
    rw [this]
    simp only [fromisoformat, r1, r2, r3, r4, r5, r6, expectChar_cons,
      Option.bind_eq_bind, Option.some_bind]
    rw [← h0]
  · have r7 : readNat 6 (padNat 6 d.microsecond ++ []) =
        some (d.microsecond, []) :=
      readNat_padNat 6 d.microsecond [] (by norm_num at hus ⊢; exact hus)
    have : d.isoformat =
        padNat 4 d.year ++ '-' ::
        (padNat 2 d.month ++ '-' ::
        (padNat 2 d.day ++ 'T' ::
        (padNat 2 d.hour ++ ':' ::
        (padNat 2 d.minute ++ ':' ::
        (padNat 2 d.second ++ '.' :: padNat 6 d.microsecond))))) := by
      rw [PyDateTime.isoformat, if_neg h0]
    rw [this]
    rw [← List.append_nil (padNat 6 d.microsecond)]
    simp only [fromisoformat, r1, r2, r3, r4, r5, r6, r7, expectChar_cons,
      Option.bind_eq_bind, Option.some_bind]

/-! ## Sorting lemmas -/

theorem mem_orderedInsert (le : α → α → Bool) (a x : α) (l : List α) :
    x ∈ orderedInsert le a l ↔ x = a ∨ x ∈ l := by
  induction l with
  | nil => simp [orderedInsert]
  | cons b m ih =>
    by_cases h : le a b = true
    · simp [orderedInsert, h]
    · simp only [orderedInsert, if_neg h, List.mem_cons, ih]
      tauto

theorem mem_insertionSort (le : α → α → Bool) (x : α) (l : List α) :
    x ∈ insertionSort le l ↔ x ∈ l := by
  induction l with
  | nil => simp [insertionSort]
  | cons a m ih =>
    simp only [insertionSort, mem_orderedInsert, List.mem_cons, ih]

theorem orderedInsert_congr (le₁ le₂ : α → α → Bool) (a : α) (l : List α)
    (h : ∀ b ∈ l, le₁ a b = le₂ a b) :
    orderedInsert le₁ a l = orderedInsert le₂ a l := by
  induction l with
  | nil => rfl
  | cons b m ih =>
    have hb := h b (List.mem_cons_self b m)
    simp only [orderedInsert, hb]
    by_cases h2 : le₂ a b = true
    · simp [h2]
    · simp only [if_neg h2]
      rw [ih (fun c hc => h c (List.mem_cons_of_mem b hc))]

theorem insertionSort_congr (le₁ le₂ : α → α → Bool) (l : List α)
    (h : ∀ a ∈ l, ∀ b ∈ l, le₁ a b = le₂ a b) :
    insertionSort le₁ l = insertionSort le₂ l := by
  induction l with
  | nil => rfl
  | cons a m ih =>
    have hm : ∀ x ∈ m, ∀ y ∈ m, le₁ x y = le₂ x y :=
      fun x hx y hy =>
        h x (List.mem_cons_of_mem a hx) y (List.mem_cons_of_mem a hy)
    simp only [insertionSort, ih hm]
    exact orderedInsert_congr le₁ le₂ a _ (fun b hb =>
      h a (List.mem_cons_self a m) b
        (List.mem_cons_of_mem a ((mem_insertionSort le₂ b m).mp hb)))

theorem perm_orderedInsert (le : α → α → Bool) (a : α) (l : List α) :
    List.Perm (orderedInsert le a l) (a :: l) := by
  induction l with
  | nil => exact List.Perm.refl _
  | cons b m ih =>
    by_cases h : le a b = true
    · simp only [orderedInsert, if_pos h]
      exact List.Perm.refl _
    · simp only [orderedInsert, if_neg h]
      exact List.Perm.trans (ih.cons b) (List.Perm.swap a b m)

theorem perm_insertionSort (le : α → α → Bool) (l : List α) :
    List.Perm (insertionSort le l) l := by
  induction l with
  | nil => exact List.Perm.refl _
  | cons a m ih =>
    exact List.Perm.trans (perm_orderedInsert le a _) (ih.cons a)

theorem sorted_orderedInsert (le : α → α → Bool)
    (htot : ∀ a b, le a b = false → le b a = true)
    (htrans : ∀ a b c, le a b = true → le b c = true → le a c = true)
    (a : α) (l : List α)
    (h : l.Pairwise (fun x y => le x y = true)) :
    (orderedInsert le a l).Pairwise (fun x y => le x y = true) := by
  induction l with
  | nil => simp [orderedInsert]
  | cons b m ih =>
    rcases List.pairwise_cons.mp h with ⟨hb, hm⟩
    by_cases hab : le a b = true
    · simp only [orderedInsert, if_pos hab]
      refine List.pairwise_cons.mpr ⟨?_, h⟩
      intro y hy
      rcases List.mem_cons.mp hy with rfl | hy
      · exact hab
      · exact htrans a b y hab (hb y hy)
    · simp only [orderedInsert, if_neg hab]
      refine List.pairwise_cons.mpr ⟨?_, ih hm⟩
      intro y hy
      rcases (mem_orderedInsert le a y m).mp hy with rfl | hy
      · exact htot _ _ (by simpa using hab)
      · exact hb y hy

theorem sorted_insertionSort (le : α → α → Bool)
    (htot : ∀ a b, le a b = false → le b a = true)
    (htrans : ∀ a b c, le a b = true → le b c = true → le a c = true)
    (l : List α) :
    (insertionSort le l).Pairwise (fun x y => le x y = true) := by
  induction l with
  | nil => simp [insertionSort]
  | cons a m ih =>
    exact sorted_orderedInsert le htot htrans a _ ih

/-! ## Claim theorems -/

/-- C1: the claim says filtering through `DateRangeFilter` leaves the
caller's input list unchanged.  In the source `filtered = records` merely
aliases the caller's list and `filtered.remove(record)` mutates it, so on
`DateRangeFilter(start_date=5).apply([{timestamp: 1}])` the caller's list
ends up empty: the final state of the input list (which `dateRangeApply`
computes) differs from the input.  This contradicts the spec, which
requires filtering to have no observable side effect on the caller's
input structure and itself flags the source's in-place mutation as a bug,
so the code, not the claim, is wrong. -/
theorem C1_dateRangeFilter_mutates_caller_list :
    WFilter.apply (.dateRange (some 5) none) [{ timestamp := some 1 }] = [] ∧
    apply_filters [.dateRange (some 5) none] [{ timestamp := some 1 }] = [] ∧
    ([] : List WRec) ≠ [{ timestamp := some 1 }] := by
  refine ⟨by decide, by decide, by decide⟩

/-- C2 counterexample: with location `"A"` averaging `0.0` and `"B"`
averaging `5.0`, both averages are non-null, yet `temperature_difference`
is `None`: `avg1 and avg2` uses Python truthiness and `0.0` is falsy.
The claim, which says a `0.0` average still yields a computed difference,
is false at this input. -/
theorem C2_zero_average_difference_counterexample :
    compare_locations
      [{ location := some "A", temperature := some 0 },
       { location := some "B", temperature := some 5 }] "A" "B" =
      .ok { location1 := "A", location1_avg_temp := some 0,
            location1_records := 1, location2 := "B",
            location2_avg_temp := some 5, location2_records := 1,
            temperature_difference := none, warmer_location := "B" } ∧
    (some (0 : ℚ) ≠ none ∧ some (5 : ℚ) ≠ none) := by
  constructor
  · simp [compare_locations, strContains, pyLower, pyLowerChar, listHasSub,
      listLeads, calculate_average_temperature, pyTruthy, pyOrZero]
  · exact ⟨by simp, by simp⟩

/-- C2 amended: in a successful `compare_locations` result,
`temperature_difference` is the absolute difference of the subset
averages whenever both averages are non-null *and nonzero*, and is null
whenever at least one average is null *or equal to 0.0* (Python
truthiness of `avg1 and avg2`). -/
theorem C2_temperature_difference_truthiness :
    ∀ records l1 l2 stats, compare_locations records l1 l2 = .ok stats →
      (∀ a1 a2, stats.location1_avg_temp = some a1 →
        stats.location2_avg_temp = some a2 → a1 ≠ 0 → a2 ≠ 0 →
        stats.temperature_difference = some |a1 - a2|) ∧
      ((stats.location1_avg_temp = none ∨ stats.location1_avg_temp = some 0 ∨
        stats.location2_avg_temp = none ∨ stats.location2_avg_temp = some 0) →
        stats.temperature_difference = none) := by
  intro records l1 l2 stats h
  simp only [compare_locations] at h
  by_cases hc : records.filter
      (fun r => strContains (r.location.getD "") l1) = [] ∨
      records.filter (fun r => strContains (r.location.getD "") l2) = []
  · rw [if_pos hc] at h; cases h
  · rw [if_neg hc] at h
    cases h
    constructor
    · intro a1 a2 h1 h2 hn1 hn2
      simp only at h1 h2
      simp [h1, h2, pyTruthy, hn1, hn2]
    · intro hcase
      rcases hcase with h1 | h1 | h1 | h1 <;> simp only at h1 <;>
        simp [h1, pyTruthy]

/-- C2 witness: on `"A"` averaging `10` and `"B"` averaging `5`, the
amended theorem computes `temperature_difference = |10 - 5|`. -/
theorem C2_temperature_difference_truthiness_witness :
    CompareStats.temperature_difference
      { location1 := "A", location1_avg_temp := some 10,
        location1_records := 1, location2 := "B",
        location2_avg_temp := some 5, location2_records := 1,
        temperature_difference := some 5, warmer_location := "A" } =
      some |(10 : ℚ) - 5| :=
  (C2_temperature_difference_truthiness
    [{ location := some "A", temperature := some 10 },
     { location := some "B", temperature := some 5 }] "A" "B" _
    (by simp [compare_locations, strContains, pyLower, pyLowerChar,
      listHasSub, listLeads, calculate_average_temperature, pyTruthy,
      pyOrZero]; norm_num)).1
    10 5 rfl rfl (by norm_num) (by norm_num)

/-- C3 counterexample: on one record with a temperature but no location,
`unique_locations` is `1` — the Python `set` contains `None` — while the
number of distinct non-null location values is `0`.  The claim, which
says records lacking a location do not contribute a distinct value, is
false at this input. -/
theorem C3_unique_locations_counterexample :
    get_summary_statistics 0 [{ temperature := some 20 }] =
      .ok { total_records := 1, average_temperature := 20,
            min_temperature := 20, max_temperature := 20,
            temperature_range := 0, unique_locations := 1,
            trend := .insufficient } ∧
    (([{ temperature := some 20 }] : List WRec).filterMap
      (·.location)).dedup.length = 0 := by
  constructor
  · simp [get_summary_statistics, listMin, listMax,
      calculate_temperature_trend, List.dedup]
  · simp

/-- C3 support: the number of distinct `Option`-values in a list is the
number of distinct present values, plus one if `none` occurs. -/
theorem dedup_option_count (l : List (Option String)) :
    l.dedup.length =
      (l.filterMap id).dedup.length + (if none ∈ l then 1 else 0) := by
  classical
  rw [← List.card_toFinset, ← List.card_toFinset]
  have himg : (l.filterMap id).toFinset.image some = l.toFinset.erase none := by
    ext x
    cases x with
    | none => simp
    | some s => simp [List.mem_filterMap]
  have hcard : (l.filterMap id).toFinset.card =
      (l.toFinset.erase none).card := by
    rw [← himg, Finset.card_image_of_injective _ (Option.some_injective _)]
  rw [hcard]
  by_cases hn : none ∈ l
  · rw [if_pos hn]
    have hmem : (none : Option String) ∈ l.toFinset := List.mem_toFinset.mpr hn
    have hpos : 0 < l.toFinset.card := Finset.card_pos.mpr ⟨none, hmem⟩
    rw [Finset.card_erase_of_mem hmem]
    omega
  · rw [if_neg hn, Finset.erase_eq_of_not_mem (by simp [hn]), Nat.add_zero]

/-- C3 amended: in a successful summary, `unique_locations` is the number
of distinct non-null location values *plus one* when any record lacks a
location — `len(set(r.get('location') for r in records))` counts `None`
as one further distinct value. -/
theorem C3_unique_locations_counts_null :
    ∀ now records stats, get_summary_statistics now records = .ok stats →
      stats.unique_locations =
        (records.filterMap (·.location)).dedup.length +
          (if none ∈ records.map (·.location) then 1 else 0) := by
  intro now records stats h
  simp only [get_summary_statistics] at h
  by_cases he : records = []
  · rw [if_pos he] at h; cases h
  · rw [if_neg he] at h
    rcases ht : records.filterMap (·.temperature) with _ | ⟨t, ts⟩ <;>
      rw [ht] at h
    · cases h
    · cases h
      simp only
      rw [dedup_option_count]
      congr 1
      rw [List.filterMap_map]
      rfl

/-- C3 witness: the amended count at a concrete record list with one
located and one locationless record. -/
theorem C3_unique_locations_counts_null_witness :
    SummaryStats.unique_locations
      { total_records := 2, average_temperature := 15,
        min_temperature := 10, max_temperature := 20,
        temperature_range := 10, unique_locations := 2,
        trend := .cooling (-10) } =
      (([{ location := some "A", temperature := some 20 },
         { temperature := some 10 }] : List WRec).filterMap
        (·.location)).dedup.length +
        (if none ∈ ([{ location := some "A", temperature := some 20 },
          { temperature := some 10 }] : List WRec).map (·.location)
         then 1 else 0) :=
  C3_unique_locations_counts_null 0
    [{ location := some "A", temperature := some 20 },
     { temperature := some 10 }] _
    (by simp [get_summary_statistics, listMin, listMax,
      calculate_temperature_trend, trendSorted, insertionSort, orderedInsert,
      trendKey, calculate_average_temperature, List.dedup, List.insert,
      min_def, max_def]; norm_num)

/-- C4 counterexample: on two records, one lacking both a `timestamp` and
a `date` field, `calculate_temperature_trend` sorts by a key that falls
back to `datetime.now()`, and its result flips between warming and
cooling as the ambient clock moves: the operation is not a pure function
of its inputs. -/
theorem C4_trend_depends_on_clock_counterexample :
    calculate_temperature_trend 0
      [{ temperature := some 10 },
       { temperature := some 20, timestamp := some 10 }] = .warming 10 ∧
    calculate_temperature_trend 20
      [{ temperature := some 10 },
       { temperature := some 20, timestamp := some 10 }] = .cooling (-10) ∧
    calculate_temperature_trend 0
        [{ temperature := some 10 },
         { temperature := some 20, timestamp := some 10 }] ≠
      calculate_temperature_trend 20
        [{ temperature := some 10 },
         { temperature := some 20, timestamp := some 10 }] := by
  have h1 : calculate_temperature_trend 0
      [{ temperature := some 10 },
       { temperature := some 20, timestamp := some 10 }] = .warming 10 := by
    simp [calculate_temperature_trend, trendSorted, insertionSort,
      orderedInsert, trendKey, calculate_average_temperature]
    norm_num
  have h2 : calculate_temperature_trend 20
      [{ temperature := some 10 },
       { temperature := some 20, timestamp := some 10 }] = .cooling (-10) := by
    simp [calculate_temperature_trend, trendSorted, insertionSort,
      orderedInsert, trendKey, calculate_average_temperature]
    norm_num
  refine ⟨h1, h2, ?_⟩
  rw [h1, h2]
  simp

/-- C4 amended: every analyzer operation is a pure function of its
explicit arguments; in particular `calculate_temperature_trend` is
independent of the ambient clock *provided every record carries a
`timestamp` or a `date` field*.  (When a record lacks both, the sort key
falls back to `datetime.now()` and the result may depend on the clock —
see the counterexample.) -/
theorem C4_trend_clock_independent_when_dated (now₁ now₂ : Int)
    (records : List WRec)
    (h : ∀ r ∈ records, r.timestamp ≠ none ∨ r.date ≠ none) :
    calculate_temperature_trend now₁ records =
      calculate_temperature_trend now₂ records := by
  have hkey : ∀ r ∈ records, trendKey now₁ r = trendKey now₂ r := by
    intro r hr
    rcases h r hr with h1 | h1 <;>
      rcases ht : r.timestamp with _ | t <;>
      rcases hd : r.date with _ | d <;>
      simp_all [trendKey]
  have hsort : trendSorted now₁ records = trendSorted now₂ records := by
    unfold trendSorted
    apply insertionSort_congr
    intro a ha b hb
    rw [hkey a ha, hkey b hb]
  unfold calculate_temperature_trend
  rw [hsort]

/-- C4 witness: the clock-independence theorem at two concrete clocks and
a fully-dated record list. -/
theorem C4_trend_clock_independent_when_dated_witness :
    calculate_temperature_trend 0
      [{ temperature := some 10, timestamp := some 1 },
       { temperature := some 20, date := some 2 }] =
    calculate_temperature_trend 99
      [{ temperature := some 10, timestamp := some 1 },
       { temperature := some 20, date := some 2 }] :=
  C4_trend_clock_independent_when_dated 0 99 _
    (by intro r hr
        fin_cases hr
        · exact Or.inl (by simp)
        · exact Or.inr (by simp))

/-- C5: `calculate_temperature_trend` returns the insufficient-data
sentinel on fewer than 2 records; otherwise it stably sorts the records
ascending by their parsed timestamp key (a permutation of the input,
pairwise non-decreasing in the key), splits off a first half of
`⌊n/2⌋` records (the rest, including the extra record on odd counts,
forming the second half), and classifies the difference of the halves'
average temperatures: `|diff| < 1` gives the stable label (carrying the
printed magnitude `|diff|`), positive `diff` warming, negative cooling.
On temperatures `[10,10,20,20]` sorted ascending it warms by `+10.0`,
and on `[10,20,10,20]` already sorted by timestamp it is stable at
`0.0`. -/
theorem C5_trend_algorithm :
    (∀ now records, records.length < 2 →
      calculate_temperature_trend now records = .insufficient) ∧
    (∀ now records,
      List.Perm (trendSorted now records) records ∧
      (trendSorted now records).Pairwise
        (fun a b => trendKey now a ≤ trendKey now b)) ∧
    (∀ now records, 2 ≤ records.length →
      ∀ a1 a2,
        calculate_average_temperature
          ((trendSorted now records).take
            ((trendSorted now records).length / 2)) = some a1 →
        calculate_average_temperature
          ((trendSorted now records).drop
            ((trendSorted now records).length / 2)) = some a2 →
        calculate_temperature_trend now records =
          (if |a2 - a1| < 1 then .stable |a2 - a1|
           else if 0 < a2 - a1 then .warming (a2 - a1)
           else .cooling (a2 - a1))) ∧
    calculate_temperature_trend 0
      [{ temperature := some 10, timestamp := some 1 },
       { temperature := some 10, timestamp := some 2 },
       { temperature := some 20, timestamp := some 3 },
       { temperature := some 20, timestamp := some 4 }] = .warming 10 ∧
    calculate_temperature_trend 0
      [{ temperature := some 10, timestamp := some 1 },
       { temperature := some 20, timestamp := some 2 },
       { temperature := some 10, timestamp := some 3 },
       { temperature := some 20, timestamp := some 4 }] = .stable 0 := by
  refine ⟨?_, ?_, ?_, ?_, ?_⟩
  · intro now records hlen
    unfold calculate_temperature_trend
    rw [if_pos hlen]
  · intro now records
    constructor
    · exact perm_insertionSort _ _
    · have h := sorted_insertionSort
        (fun a b : WRec => decide (trendKey now a ≤ trendKey now b))
        (by intro a b hab; simp at hab ⊢; omega)
        (by intro a b c hab hbc; simp at hab hbc ⊢; omega)
        records
      exact List.Pairwise.imp (fun hxy => of_decide_eq_true hxy) h
  · intro now records hlen a1 a2 h1 h2
    unfold calculate_temperature_trend
    rw [if_neg (by omega)]
    simp only [h1, h2]
  · simp [calculate_temperature_trend, trendSorted, insertionSort,
      orderedInsert, trendKey, calculate_average_temperature]
    norm_num
  · simp [calculate_temperature_trend, trendSorted, insertionSort,
      orderedInsert, trendKey, calculate_average_temperature]

/-- C5 witness: the insufficient-data clause of the algorithm theorem at
a singleton record list. -/
theorem C5_trend_algorithm_witness :
    calculate_temperature_trend 0 [{ temperature := some 10 }] =
      .insufficient :=
  C5_trend_algorithm.1 0 [{ temperature := some 10 }] (by simp)

/-- C6: in a successful `compare_locations` result, `warmer_location` is
the first location exactly when the first subset's average (null treated
as 0, via Python `avg or 0`) strictly exceeds the second's, and the
second location otherwise; a 10.0-versus-10.0 tie resolves to the second
location. -/
theorem C6_warmer_location_tiebreak :
    (∀ records l1 l2 stats, compare_locations records l1 l2 = .ok stats →
      stats.warmer_location =
        (if stats.location2_avg_temp.getD 0 < stats.location1_avg_temp.getD 0
         then l1 else l2)) ∧
    compare_locations
      [{ location := some "A", temperature := some 10 },
       { location := some "B", temperature := some 10 }] "A" "B" =
      .ok { location1 := "A", location1_avg_temp := some 10,
            location1_records := 1, location2 := "B",
            location2_avg_temp := some 10, location2_records := 1,
            temperature_difference := some 0, warmer_location := "B" } := by
  constructor
  · intro records l1 l2 stats h
    simp only [compare_locations] at h
    by_cases hc : records.filter
        (fun r => strContains (r.location.getD "") l1) = [] ∨
        records.filter (fun r => strContains (r.location.getD "") l2) = []
    · rw [if_pos hc] at h; cases h
    · rw [if_neg hc] at h
      cases h
      simp [pyOrZero_eq_getD]
  · simp [compare_locations, strContains, pyLower, pyLowerChar, listHasSub,
      listLeads, calculate_average_temperature, pyTruthy, pyOrZero]

/-- C6 witness: the tie-break equation at the concrete tie input. -/
theorem C6_warmer_location_tiebreak_witness :
    CompareStats.warmer_location
      { location1 := "A", location1_avg_temp := some 10,
        location1_records := 1, location2 := "B",
        location2_avg_temp := some 10, location2_records := 1,
        temperature_difference := some 0, warmer_location := "B" } =
      (if (some (10 : ℚ)).getD 0 < (some (10 : ℚ)).getD 0
       then "A" else "B") :=
  C6_warmer_location_tiebreak.1
    [{ location := some "A", temperature := some 10 },
     { location := some "B", temperature := some 10 }] "A" "B" _
    C6_warmer_location_tiebreak.2

/-- C7 support: a pure inclusion filter (temperature-range or location)
acts as `List.filter` of its predicate. -/
theorem inclusion_apply_eq_filter (f : WFilter) (hf : f.isInclusion = true)
    (records : List WRec) :
    f.apply records = records.filter (fun r => f.pred r) := by
  cases f with
  | tempRange mn mx =>
    cases mn <;> cases mx <;>
      simp [WFilter.apply, WFilter.pred, List.filter_filter, Bool.and_comm]
  | dateRange s e => simp [WFilter.isInclusion] at hf
  | location loc => simp [WFilter.apply, WFilter.pred]

/-- C7: chaining two pure inclusion filters through `apply_filters`
equals a single `List.filter` by the conjunction of their predicates;
and `TemperatureRangeFilter(10,20)` on temperatures `[5,15,25]` keeps
exactly the `15` record. -/
theorem C7_inclusion_filters_compose :
    (∀ f1 f2 records, f1.isInclusion = true → f2.isInclusion = true →
      apply_filters [f1, f2] records =
        records.filter (fun r => f1.pred r && f2.pred r)) ∧
    apply_filters [.tempRange (some 10) (some 20)]
      [{ temperature := some 5 }, { temperature := some 15 },
       { temperature := some 25 }] =
      [{ temperature := some 15 }] := by
  constructor
  · intro f1 f2 records h1 h2
    simp only [apply_filters, List.foldl_cons, List.foldl_nil]
    rw [inclusion_apply_eq_filter f1 h1, inclusion_apply_eq_filter f2 h2,
      List.filter_filter]
    simp only [Bool.and_comm]
  · simp [apply_filters, WFilter.apply]
    norm_num

/-- C7 witness: the composition law at a concrete chain of a
temperature-range filter and a location filter. -/
theorem C7_inclusion_filters_compose_witness :
    apply_filters [.tempRange (some 10) none, .location "a"]
      [{ location := some "Alpha", temperature := some 15 },
       { location := some "Beta", temperature := some 5 }] =
      ([{ location := some "Alpha", temperature := some 15 },
        { location := some "Beta", temperature := some 5 }] : List WRec).filter
        (fun r => (WFilter.tempRange (some 10) none).pred r &&
          (WFilter.location "a").pred r) :=
  C7_inclusion_filters_compose.1 (.tempRange (some 10) none) (.location "a")
    [{ location := some "Alpha", temperature := some 15 },
     { location := some "Beta", temperature := some 5 }] rfl rfl

/-- C8: for a validly constructed record (validation passes and its
datetime components are in range, as every Python `datetime` is),
`from_dict (to_dict r)` reconstructs `r` field for field; the timestamp
survives the round trip through its ISO-8601 string form losslessly. -/
theorem C8_record_dict_roundtrip (r : WeatherRecord)
    (hts : r.timestamp.inRange) (hval : r.post_init = .ok ()) :
    WeatherRecord.from_dict r.to_dict = .ok r := by
  unfold WeatherRecord.from_dict WeatherRecord.to_dict
  simp only [fromisoformat_isoformat r.timestamp hts]
  show WeatherRecord.construct r = .ok r
  unfold WeatherRecord.construct
  rw [hval]

/-- C8 witness: the round trip at the spec's example record
(temperature 25.0, humidity 50, a concrete timestamp). -/
theorem C8_record_dict_roundtrip_witness :
    PyDateTime.inRange ⟨2024, 1, 15, 12, 30, 0, 0⟩ ∧
    WeatherRecord.from_dict
      (WeatherRecord.to_dict
        { location := "Paris", temperature := 25,
          timestamp := ⟨2024, 1, 15, 12, 30, 0, 0⟩, source := "api",
          humidity := some 50 }) =
      .ok { location := "Paris", temperature := 25,
            timestamp := ⟨2024, 1, 15, 12, 30, 0, 0⟩, source := "api",
            humidity := some 50 } :=
  ⟨by decide,
   C8_record_dict_roundtrip _ (by decide)
     (by norm_num [WeatherRecord.post_init])⟩

/-- C9: `WeatherRecord` construction raises exactly when the temperature
leaves `[-100, 60]`, a present humidity leaves `[0, 100]`, or a present
windspeed is negative; `HistoricalWeatherRecord` construction raises
exactly when both temperature bounds are present with max strictly below
min. -/
theorem C9_construction_validation :
    (∀ r : WeatherRecord,
      (raisesError (WeatherRecord.construct r) = true ↔
        (r.temperature < -100 ∨ 60 < r.temperature) ∨
        (∃ h, r.humidity = some h ∧ (h < 0 ∨ 100 < h)) ∨
        (∃ w, r.windspeed = some w ∧ w < 0))) ∧
    (∀ r : HistoricalWeatherRecord,
      (raisesError (HistoricalWeatherRecord.construct r) = true ↔
        ∃ mx mn, r.temperature_max = some mx ∧
          r.temperature_min = some mn ∧ mx < mn)) := by
  constructor
  · intro r
    unfold WeatherRecord.construct WeatherRecord.post_init
    rcases hh : r.humidity with _ | hv <;>
      rcases hw : r.windspeed with _ | wv <;>
      split_ifs <;> simp_all [raisesError]
  · intro r
    unfold HistoricalWeatherRecord.construct HistoricalWeatherRecord.post_init
    rcases hx : r.temperature_max with _ | mx <;>
      rcases hn : r.temperature_min with _ | mn <;>
      simp_all [raisesError]
    split_ifs <;> simp_all [raisesError]

/-- C9 witness: a temperature of 100 is rejected, per the validation
theorem. -/
theorem C9_construction_validation_witness :
    raisesError (WeatherRecord.construct
      { location := "X", temperature := 100,
        timestamp := ⟨2024, 1, 1, 0, 0, 0, 0⟩, source := "s" }) = true :=
  (C9_construction_validation.1 _).mpr (Or.inl (Or.inr (by norm_num)))

/-- C10: on a record list whose location subset is non-empty but carries
no temperature, `get_summary_statistics` returns the error mapping and
`generate_location_report` reads `stats['total_records']` without
checking for the error key, so the lookup raises `KeyError` instead of
returning a string — while `generate_summary_report` checks the error
key first and returns an error string. -/
theorem C10_location_report_raises_keyerror :
    generate_location_report 0 [{ location := some "X" }] "x" =
      .error "KeyError: total_records" ∧
    generate_summary_report 0 [{ location := some "X" }] =
      "❌ No temperature data available" := by
  constructor
  · simp [generate_location_report, get_summary_statistics, strContains,
      pyLower, pyLowerChar, listHasSub, listLeads]
  · simp [generate_summary_report, get_summary_statistics]
